import Mathlib

/-!
Shallow embedding of the job-orchestration core of the PDF OCR service
(file `services/ocr_service_deploy/ocr_service.py`).

The Redis status cache (`doc:{id}` keys), the `hash:{fingerprint}` index,
the MongoDB `documents` collection and the error files written by
`save_error` are modelled as association lists inside one explicit system
state; wall-clock timestamps (`datetime.now()`) are modelled by a logical
counter `clock`.  The analysis engine (`PymuDocDataset` construction,
`classify`, `doc_analyze` and the pipe results) is an external
collaborator: it enters the model as an `Except String EngineOut` value
describing its outcome on the submitted bytes (an exception message, or
the produced content list and markdown).  The availability of the MongoDB
store during `update_one` is the boolean `mongoOk`; the SHA-256 hex digest
is an opaque collaborator passed as a function `hashHex`.  Every
state-changing Python function of the service is translated one-to-one
below, keeping its name.  A `trace` of store-write events is accumulated
so that ordering properties of the writes can be stated.
-/

/-- Job status values as written into the Redis status records by the
service: `queued` (upload_pdf), `processing` / `completed` / `failed`
(process_pdf_async and save_results). -/
inductive Status where
  | queued
  | processing
  | completed
  | failed
  deriving DecidableEq, Repr

/-- The flat status dictionary stored under `doc:{document_id}` in Redis.
Each write site of the Python code builds a fresh dictionary with a subset
of these keys; absent keys are `none`.  Timestamps are logical clock
values. -/
structure StatusRecord where
  status : Status
  document_hash : Option String
  filename : Option String
  started_at : Option Nat
  completed_at : Option Nat
  result : Option String
  result_preview : Option String
  error : Option String
  deriving DecidableEq, Repr

/-- The MongoDB document built in `save_results` (`mongo_doc`). -/
structure MongoDoc where
  document_id : String
  combined_text : String
  status : String
  processed_at : Nat
  word_count : Nat
  character_count : Nat
  deriving DecidableEq, Repr

/-- Store-write events, recorded in the order the service performs them:
a Redis status write (`setex doc:{id}`), a Redis fingerprint-index write
(`setex hash:{h}`), or a MongoDB upsert (`update_one ... upsert=True`). -/
inductive Event where
  | statusWrite (docId : String) (st : Status)
  | hashWrite (hash : String) (docId : String)
  | mongoUpsert (docId : String)
  deriving DecidableEq, Repr

/-- The whole mutable state of the service: Redis `doc:` keys, Redis
`hash:` keys, the MongoDB collection, the error files written by
`save_error`, the list of tasks dispatched via `asyncio.create_task`,
a logical clock, and the accumulated write trace. -/
structure SysState where
  docs : List (String × StatusRecord)
  hashIndex : List (String × String)
  mongo : List (String × MongoDoc)
  errorFiles : List (String × String)
  dispatched : List String
  clock : Nat
  trace : List Event
  deriving DecidableEq, Repr

/-- Association-list lookup, newest entry first (writes below prepend, so
this is last-write-wins, matching Redis `setex` / MongoDB upsert). -/
def lookupA {α : Type} (k : String) : List (String × α) → Option α
  | [] => none
  | (k2, v) :: rest => if k2 = k then some v else lookupA k rest

/-- The empty initial state of a freshly started service. -/
def initState : SysState :=
  { docs := [], hashIndex := [], mongo := [], errorFiles := [],
    dispatched := [], clock := 0, trace := [] }

/-- `update_document_status` (lines 66-86): if the status dictionary
carries a `document_hash`, first write the `hash:{h} -> document_id`
mapping, then store the whole dictionary under `doc:{document_id}`,
replacing any previous record. -/
def update_document_status (document_id : String) (data : StatusRecord)
    (s : SysState) : SysState :=
  let s1 :=
    match data.document_hash with
    | some h =>
      { s with hashIndex := (h, document_id) :: s.hashIndex,
               trace := s.trace ++ [Event.hashWrite h document_id] }
    | none => s
  { s1 with docs := (document_id, data) :: s1.docs,
            trace := s1.trace ++ [Event.statusWrite document_id data.status],
            clock := s1.clock + 1 }

/-- `get_document_status` (lines 89-98): read and parse `doc:{id}`. -/
def get_document_status (document_id : String) (s : SysState) :
    Option StatusRecord :=
  lookupA document_id s.docs

/-- `check_document_exists_by_id` (lines 100-111): key-existence check on
`doc:{id}`; in this embedding it reads the same map as
`get_document_status`, so it is exactly `isSome` of that read. -/
def check_document_exists_by_id (document_id : String) (s : SysState) :
    Bool :=
  (lookupA document_id s.docs).isSome

/-- One entry of the `content_list` returned by the pipe result: a dict
carrying a `text` key, a plain string, or anything else (skipped by the
combination loop). -/
inductive ContentItem where
  | textItem (text : String)
  | strItem (text : String)
  | other
  deriving DecidableEq, Repr

/-- What the analysis collaborator produces on success: the
`content_list` and the `markdown_content` of the pipe result (the OCR and
the text-extraction branches both yield this shape). -/
structure EngineOut where
  content_list : List ContentItem
  markdown : String
  deriving DecidableEq, Repr

/-- The text-combination loop of `process_pdf_sync` (lines 232-240):
append each dict's `text` value, or each plain string, followed by two
newlines; skip other entries. -/
def combineContent : List ContentItem → String
  | [] => ""
  | ContentItem.textItem t :: rest => t ++ "\n\n" ++ combineContent rest
  | ContentItem.strItem t :: rest => t ++ "\n\n" ++ combineContent rest
  | ContentItem.other :: rest => combineContent rest

/-- Model of Python `re.sub(r'#+ ', '', text)` on the character list: a
maximal run of `#` immediately followed by a space is deleted together
with that space; any other character is kept.  The accumulator `k` counts
the pending run of `#` characters. -/
def removeHeadersAux : Nat → List Char → List Char
  | k, [] => List.replicate k '#'
  | k, c :: cs =>
    if c = '#' then removeHeadersAux (k + 1) cs
    else if c = ' ' ∧ 0 < k then removeHeadersAux 0 cs
    else List.replicate k '#' ++ c :: removeHeadersAux 0 cs

/-- Model of Python `re.sub(r'\*\*|\*|__|\||---|___', '', text)`: ordered
alternation scanned left to right.  The branch `___` of the source regex
is unreachable because `__` precedes it in the alternation; the match
order below mirrors the source's alternation order. -/
def removeFormatting : List Char → List Char
  | [] => []
  | '*' :: '*' :: cs => removeFormatting cs
  | '*' :: cs => removeFormatting cs
  | '_' :: '_' :: cs => removeFormatting cs
  | '|' :: cs => removeFormatting cs
  | '-' :: '-' :: '-' :: cs => removeFormatting cs
  | c :: cs => c :: removeFormatting cs

/-- The markdown-cleanup fallback of `process_pdf_sync` (lines 243-246):
strip headers, then strip the formatting tokens. -/
def stripMarkdown (md : String) : String :=
  String.mk (removeFormatting (removeHeadersAux 0 md.data))

/-- Model of Python `str.strip()` with no arguments: drop leading and
trailing whitespace characters. -/
def pyStrip (s : String) : String :=
  String.mk
    (((s.data.dropWhile Char.isWhitespace).reverse.dropWhile
        Char.isWhitespace).reverse)

/-- Accumulating scanner for `pySplit`: `cur` holds the reversed
characters of the token being built. -/
def pySplitAux (cur : List Char) : List Char → List String
  | [] => if cur = [] then [] else [String.mk cur.reverse]
  | c :: cs =>
    if c.isWhitespace then
      if cur = [] then pySplitAux [] cs
      else String.mk cur.reverse :: pySplitAux [] cs
    else pySplitAux (c :: cur) cs

/-- Model of Python `str.split()` with no arguments: whitespace-separated
tokens, empty pieces discarded. -/
def pySplit (s : String) : List String :=
  pySplitAux [] s.data

/-- Model of Python string slicing `s[:n]` by code points. -/
def pyTake (s : String) (n : Nat) : String :=
  String.mk (s.data.take n)

/-- Model of Python `str.lower()`. -/
def pyLower (s : String) : String :=
  String.mk (s.data.map Char.toLower)

/-- Model of Python `str.endswith(post)`. -/
def pyEndsWith (s post : String) : Bool :=
  List.isSuffixOf post.data s.data

/-- The dictionary returned by `process_pdf_sync`: either
`{'status': 'completed', 'result': text}` or
`{'status': 'failed', 'error': message}`. -/
inductive SyncResult where
  | completed (result : String)
  | failed (error : String)
  deriving DecidableEq, Repr

/-- `process_pdf_sync` (lines 204-258): run the analysis engine inside a
`try`; on success combine the content list, fall back to the cleaned
markdown when the combination strips to nothing and markdown is
non-empty, and return the stripped text as a `completed` result; any
exception `e` raised inside the body is caught and returned as a `failed`
result carrying `str(e)`. -/
def process_pdf_sync (engine : Except String EngineOut) : SyncResult :=
  match engine with
  | Except.error e => SyncResult.failed e
  | Except.ok out =>
    let combined := combineContent out.content_list
    let combined :=
      if pyStrip combined = "" ∧ out.markdown ≠ "" then
        stripMarkdown out.markdown
      else combined
    SyncResult.completed (pyStrip combined)

/-- `save_results` (lines 342-388): early-return `False` unless the result
status is `completed`; build the MongoDB document (word and character
counts computed from `result['result']`, the same string stored as
`combined_text`), upsert it, then write a `completed` Redis record whose
`result_preview` truncates the text to 500 characters plus `'...'`.  A
MongoDB failure (`mongoOk = false`) raises inside the `try`, so the
function returns `False` having performed neither write.  (The source
also reads the current Redis status into `status_data` here and never
uses it.) -/
def save_results (mongoOk : Bool) (document_id : String)
    (result : SyncResult) (s : SysState) : SysState × Bool :=
  match result with
  | SyncResult.failed _ => (s, false)
  | SyncResult.completed text =>
    if mongoOk then
      let doc : MongoDoc :=
        { document_id := document_id,
          combined_text := text,
          status := "completed",
          processed_at := s.clock,
          word_count := (pySplit text).length,
          character_count := text.length }
      let s2 : SysState :=
        { s with mongo := (document_id, doc) :: s.mongo,
                 trace := s.trace ++ [Event.mongoUpsert document_id],
                 clock := s.clock + 1 }
      let preview :=
        if text.length > 500 then pyTake text 500 ++ "..." else text
      let s3 := update_document_status document_id
        { status := Status.completed, document_hash := none, filename := none,
          started_at := none, completed_at := some s2.clock, result := none,
          result_preview := some preview, error := none } s2
      (s3, true)
    else (s, false)

/-- `save_error` (lines 390-413): write the error information to a file
`error_{document_id}.json` in the output directory. -/
def save_error (document_id : String) (error_message : String)
    (s : SysState) : SysState :=
  { s with errorFiles := (document_id, error_message) :: s.errorFiles,
           clock := s.clock + 1 }

/-- `process_pdf_async` (lines 260-340): write a `processing` record, run
`process_pdf_sync` in the pool, then on a `completed` result call
`save_results` (its boolean return value is discarded) and afterwards
unconditionally write a `completed` Redis record carrying the full result
text; on a `failed` result write a `failed` record carrying the error and
then `save_error`.  The surrounding `except` branch is unreachable in
this embedding because every callee catches its own failures. -/
def process_pdf_async (document_id : String) (document_hash : Option String)
    (engine : Except String EngineOut) (mongoOk : Bool) (s : SysState) :
    SysState × SyncResult :=
  let s1 := update_document_status document_id
    { status := Status.processing, document_hash := document_hash,
      filename := none, started_at := some s.clock, completed_at := none,
      result := none, result_preview := none, error := none } s
  let result := process_pdf_sync engine
  match result with
  | SyncResult.completed text =>
    let s2 := (save_results mongoOk document_id result s1).1
    let s3 := update_document_status document_id
      { status := Status.completed, document_hash := document_hash,
        filename := none, started_at := none, completed_at := some s2.clock,
        result := some text, result_preview := none, error := none } s2
    (s3, result)
  | SyncResult.failed err =>
    let s2 := update_document_status document_id
      { status := Status.failed, document_hash := document_hash,
        filename := none, started_at := none, completed_at := some s1.clock,
        result := none, result_preview := none, error := some err } s1
    let s3 := save_error document_id err s2
    (s3, result)

/-- Responses of the `/extract` endpoint: the success body
`{"status": "ok"}`, the duplicate body `{"status": existing}`, the 400
for a non-PDF filename, and the `HTTPException` object returned (not
raised) for a missing `document_id`. -/
inductive UploadResponse where
  | ok
  | dup (status : Status)
  | invalidFileType
  | missingId
  deriving DecidableEq, Repr

/-- `upload_pdf` (lines 415-474): reject non-`.pdf` filenames, reject an
empty `document_id`, hash the bytes, and if a status record already
exists return its status without scheduling anything; otherwise write the
`queued` record and dispatch `process_pdf_async` as a background task.
In the source the duplicate path first calls
`check_document_exists_by_id` and then `get_document_status`; both read
the same `doc:{id}` key, so the pair collapses to one `match` on the read
record (the `None`-after-`exists` fall-through of the source cannot occur
in this sequential embedding). -/
def upload_pdf (hashHex : List Nat → String) (filename document_id : String)
    (file_bytes : List Nat) (s : SysState) : SysState × UploadResponse :=
  if pyEndsWith (pyLower filename) ".pdf" = false then
    (s, UploadResponse.invalidFileType)
  else if document_id = "" then (s, UploadResponse.missingId)
  else
    let document_hash := hashHex file_bytes
    match get_document_status document_id s with
    | some d => (s, UploadResponse.dup d.status)
    | none =>
      let s1 := update_document_status document_id
        { status := Status.queued, document_hash := some document_hash,
          filename := some filename, started_at := some s.clock,
          completed_at := none, result := none, result_preview := none,
          error := none } s
      let s2 := { s1 with dispatched := s1.dispatched ++ [document_id] }
      (s2, UploadResponse.ok)

/-- Body and HTTP code of the `/check-status/{document_id}` response. -/
structure StatusResp where
  status : String
  httpCode : Nat
  deriving DecidableEq, Repr

/-- `check_processing_status` (lines 476-504): map a stored `completed`
to `"completed"`, a stored `failed` to `"error"`, any other stored status
to `"processing"`, and a missing record to `"unknown"` with HTTP 404. -/
def check_processing_status (document_id : String) (s : SysState) :
    StatusResp :=
  match get_document_status document_id s with
  | some d =>
    match d.status with
    | Status.completed => { status := "completed", httpCode := 200 }
    | Status.failed => { status := "error", httpCode := 200 }
    | _ => { status := "processing", httpCode := 200 }
  | none => { status := "unknown", httpCode := 404 }

/-- Responses of the `/result/{document_id}` endpoint: the in-progress
body carrying the cached status, the completed body carrying the full
text from MongoDB, and the 404 not-found body. -/
inductive ResultResp where
  | statusOnly (document_id : String) (status : Status)
  | completedText (document_id : String) (text : String)
  | notFound (message : String)
  deriving DecidableEq, Repr

/-- The MongoDB branch of `get_processing_result` (lines 529-551):
`find_one` on `document_id`; found documents yield the completed body,
otherwise the 404 not-found body. -/
def result_from_mongo (document_id : String) (s : SysState) : ResultResp :=
  match lookupA document_id s.mongo with
  | some doc => ResultResp.completedText document_id doc.combined_text
  | none =>
    ResultResp.notFound ("No record found for document ID: " ++ document_id)

/-- `get_processing_result` (lines 506-561): read the Redis status; when a
record exists with a status other than `completed`, return that status;
when the status is `completed` or no record exists, consult MongoDB and
return the full text or the plain 404 not-found body. -/
def get_processing_result (document_id : String) (s : SysState) :
    ResultResp :=
  match get_document_status document_id s with
  | some d =>
    if d.status ≠ Status.completed then
      ResultResp.statusOnly document_id d.status
    else result_from_mongo document_id s
  | none => result_from_mongo document_id s

/-- A full job run: the `/extract` call followed, when a task was
dispatched, by the background `process_pdf_async` for the same
`document_id` and hash.  This is the sequential composition the event
loop performs for a single job. -/
def runJob (hashHex : List Nat → String) (filename document_id : String)
    (file_bytes : List Nat) (engine : Except String EngineOut)
    (mongoOk : Bool) (s : SysState) : SysState × UploadResponse :=
  match upload_pdf hashHex filename document_id file_bytes s with
  | (s1, UploadResponse.ok) =>
    ((process_pdf_async document_id (some (hashHex file_bytes)) engine
        mongoOk s1).1, UploadResponse.ok)
  | (s1, resp) => (s1, resp)

/-- A status is terminal when it is `completed` or `failed`. -/
def isTerminal : Status → Bool
  | Status.completed => true
  | Status.failed => true
  | _ => false

/-- The statuses written for one `document_id`, in write order, extracted
from the event trace. -/
def statusWritesFor (docId : String) (tr : List Event) : List Status :=
  tr.filterMap fun e =>
    match e with
    | Event.statusWrite i st => if i = docId then some st else none
    | _ => none

/-- The ordering demanded for one job's status writes: first `queued`,
then `processing`, then at least one write, all of them terminal. -/
def validStatusSeq : List Status → Bool
  | Status.queued :: Status.processing :: t :: rest =>
    (t :: rest).all isTerminal
  | _ => false

/-- Scans the event trace and reports whether a `completed` status write
for the given job occurs before the job's first durable MongoDB upsert. -/
def completedBeforeUpsert (docId : String) : List Event → Bool
  | [] => false
  | Event.mongoUpsert i :: rest =>
    if i = docId then false else completedBeforeUpsert docId rest
  | Event.statusWrite i st :: rest =>
    if i = docId ∧ st = Status.completed then true
    else completedBeforeUpsert docId rest
  | Event.hashWrite _ _ :: rest => completedBeforeUpsert docId rest

/-- A stub digest collaborator used for concrete instances. -/
def hash0 : List Nat → String := fun _ => "h0"

/-- A concrete successful engine outcome producing the text
`hello world`. -/
def out0 : EngineOut :=
  { content_list := [ContentItem.textItem "hello world"], markdown := "" }

/-- State reached by running job `j1` to completion while the MongoDB
upsert fails (`mongoOk = false`): Redis reports `completed`, MongoDB
holds nothing. -/
def sInc : SysState :=
  (runJob hash0 "f.pdf" "j1" [1] (Except.ok out0) false initState).1

/-- State holding one `queued` record for job `a1`, reached by a first
successful submission. -/
def sDup : SysState :=
  (upload_pdf hash0 "f.pdf" "a1" [1] initState).1

/-- The `queued` record stored for `a1` in `sDup`. -/
def qrec : StatusRecord :=
  { status := Status.queued, document_hash := some "h0",
    filename := some "f.pdf", started_at := some 0, completed_at := none,
    result := none, result_preview := none, error := none }

/-- A 501-character result text, one character over the preview
truncation threshold of `save_results`. -/
def bigText : String := String.mk (List.replicate 501 'a')

/-- Engine outcome whose combined text is `bigText`. -/
def outBig : EngineOut :=
  { content_list := [ContentItem.textItem bigText], markdown := "" }

/-- Claim C1 (counterexample): running a job to completion while the
durable MongoDB upsert fails leaves the Redis status at `completed` with
no ResultStore record for the job, so a `completed` status does not imply
an existing durable record, and a failed upsert does not prevent the
`completed` mark (`process_pdf_async` ignores the return value of
`save_results`). -/
theorem c1_counterexample :
    (get_document_status "j1" sInc).map (fun r => r.status)
      = some Status.completed ∧
    lookupA "j1" sInc.mongo = none := by
  decide

/-- Claim C1 (amended): when the durable store is available
(`mongoOk = true`), no `completed` status write for the job precedes the
job's MongoDB upsert in the write trace, and a final `completed` status
implies that a durable record exists; when the upsert fails the
orchestrator nevertheless marks the job `completed`. -/
theorem c1_upsert_before_completed (hashHex : List Nat → String)
    (filename document_id : String) (file_bytes : List Nat)
    (engine : Except String EngineOut)
    (hf : pyEndsWith (pyLower filename) ".pdf" = true)
    (hid : document_id ≠ "") :
    completedBeforeUpsert document_id
        (runJob hashHex filename document_id file_bytes engine true
          initState).1.trace = false ∧
    ((get_document_status document_id
        (runJob hashHex filename document_id file_bytes engine true
          initState).1).map (fun r => r.status) = some Status.completed →
      (lookupA document_id
        (runJob hashHex filename document_id file_bytes engine true
          initState).1.mongo).isSome = true) := by
  cases engine with
  | error e =>
    simp [runJob, upload_pdf, hf, hid, process_pdf_async, process_pdf_sync,
      save_results, save_error, update_document_status, get_document_status,
      lookupA, completedBeforeUpsert, initState]
  | ok out =>
    simp [runJob, upload_pdf, hf, hid, process_pdf_async, process_pdf_sync,
      save_results, save_error, update_document_status, get_document_status,
      lookupA, completedBeforeUpsert, initState]

/-- Claim C1 (witness for the amended theorem at a concrete job). -/
theorem c1_witness :
    completedBeforeUpsert "a1"
        (runJob hash0 "f.pdf" "a1" [1] (Except.ok out0) true
          initState).1.trace = false ∧
    (lookupA "a1"
        (runJob hash0 "f.pdf" "a1" [1] (Except.ok out0) true
          initState).1.mongo).isSome = true :=
  ⟨(c1_upsert_before_completed hash0 "f.pdf" "a1" [1] (Except.ok out0)
      (by decide) (by decide)).1,
   (c1_upsert_before_completed hash0 "f.pdf" "a1" [1] (Except.ok out0)
      (by decide) (by decide)).2 (by decide)⟩

/-- Claim C2: a second submit call whose `job_id` still has a
StatusRecord returns the stored record's status and leaves the state
(in particular the dispatched-task list) unchanged, so no new WorkerPool
task is created. -/
theorem c2_idempotent_submission (hashHex : List Nat → String)
    (filename document_id : String) (file_bytes : List Nat) (s : SysState)
    (rec : StatusRecord)
    (hf : pyEndsWith (pyLower filename) ".pdf" = true)
    (hid : document_id ≠ "")
    (hrec : get_document_status document_id s = some rec) :
    upload_pdf hashHex filename document_id file_bytes s
      = (s, UploadResponse.dup rec.status) := by
  simp [upload_pdf, hf, hid, hrec]

/-- Claim C2 (witness): resubmitting `a1` while its `queued` record
exists returns `queued` and changes nothing. -/
theorem c2_witness :
    upload_pdf hash0 "g.pdf" "a1" [2] sDup
      = (sDup, UploadResponse.dup Status.queued) :=
  c2_idempotent_submission hash0 "g.pdf" "a1" [2] sDup qrec
    (by decide) (by decide) (by decide)

/-- Claim C3 (counterexample): submitting `a2` with empty bytes is not
rejected: the call returns the success body, a `queued` StatusRecord is
created, the task is dispatched, and a subsequent status poll answers
`processing`, not `unknown`. -/
theorem c3_counterexample :
    (upload_pdf hash0 "f.pdf" "a2" [] initState).2 = UploadResponse.ok ∧
    (get_document_status "a2"
        (upload_pdf hash0 "f.pdf" "a2" [] initState).1).map
      (fun r => r.status) = some Status.queued ∧
    (upload_pdf hash0 "f.pdf" "a2" [] initState).1.dispatched = ["a2"] ∧
    (check_processing_status "a2"
        (upload_pdf hash0 "f.pdf" "a2" [] initState).1).status
      = "processing" := by
  decide

/-- Claim C3 (amended): submit applies no empty-input check; a submission
with empty bytes and a fresh `job_id` is accepted like any other: it
creates a `queued` StatusRecord, dispatches a task, and a subsequent
status poll returns a non-`unknown` answer. -/
theorem c3_empty_input_accepted (hashHex : List Nat → String)
    (filename document_id : String) (s : SysState)
    (hf : pyEndsWith (pyLower filename) ".pdf" = true)
    (hid : document_id ≠ "")
    (hfresh : get_document_status document_id s = none) :
    (upload_pdf hashHex filename document_id [] s).2 = UploadResponse.ok ∧
    (get_document_status document_id
        (upload_pdf hashHex filename document_id [] s).1).map
      (fun r => r.status) = some Status.queued ∧
    (upload_pdf hashHex filename document_id [] s).1.dispatched
      = s.dispatched ++ [document_id] ∧
    (check_processing_status document_id
        (upload_pdf hashHex filename document_id [] s).1).status
      = "processing" := by
  have hfresh2 : lookupA document_id s.docs = none := hfresh
  simp [upload_pdf, hf, hid, hfresh2, update_document_status,
    get_document_status, check_processing_status, lookupA]

/-- Claim C3 (witness for the amended theorem at a concrete empty
submission). -/
theorem c3_witness :
    (upload_pdf hash0 "b2.pdf" "b2" [] initState).2 = UploadResponse.ok ∧
    (get_document_status "b2"
        (upload_pdf hash0 "b2.pdf" "b2" [] initState).1).map
      (fun r => r.status) = some Status.queued ∧
    (upload_pdf hash0 "b2.pdf" "b2" [] initState).1.dispatched
      = initState.dispatched ++ ["b2"] ∧
    (check_processing_status "b2"
        (upload_pdf hash0 "b2.pdf" "b2" [] initState).1).status
      = "processing" :=
  c3_empty_input_accepted hash0 "b2.pdf" "b2" initState
    (by decide) (by decide) (by decide)

/-- Claim C4 (counterexample): the status poll does not return the stored
status: a stored `queued` record is answered with `"processing"`, and a
stored `failed` record is answered with `"error"`, a value outside the
five statuses of the claim. -/
theorem c4_counterexample :
    (get_document_status "a1" sDup).map (fun r => r.status)
      = some Status.queued ∧
    (check_processing_status "a1" sDup).status = "processing" ∧
    (get_document_status "a4"
        (runJob hash0 "f.pdf" "a4" [1] (Except.error "boom") true
          initState).1).map (fun r => r.status) = some Status.failed ∧
    (check_processing_status "a4"
        (runJob hash0 "f.pdf" "a4" [1] (Except.error "boom") true
          initState).1).status = "error" ∧
    (["queued", "processing", "completed", "failed", "unknown"].contains
        "error") = false := by
  decide

/-- Claim C4 (amended): the status poll reads only the StatusStore (it is
insensitive to the MongoDB contents) and returns exactly one of
`completed`, `error`, `processing`, `unknown`: `completed` for a stored
`completed`, `error` for a stored `failed`, `processing` for any other
stored status, and `unknown` with HTTP 404 when no record exists. -/
theorem c4_peek_status_mapping (document_id : String) (s : SysState) :
    ((check_processing_status document_id s).status = "completed" ∨
     (check_processing_status document_id s).status = "error" ∨
     (check_processing_status document_id s).status = "processing" ∨
     (check_processing_status document_id s).status = "unknown") ∧
    (∀ m, check_processing_status document_id { s with mongo := m }
      = check_processing_status document_id s) ∧
    (get_document_status document_id s = none →
      check_processing_status document_id s
        = { status := "unknown", httpCode := 404 }) ∧
    (∀ rec, get_document_status document_id s = some rec →
      (check_processing_status document_id s).status
        = (match rec.status with
           | Status.completed => "completed"
           | Status.failed => "error"
           | _ => "processing")) := by
  refine ⟨?_, ?_, ?_, ?_⟩
  · cases h : get_document_status document_id s with
    | none => simp [check_processing_status, h]
    | some rec =>
      cases hs : rec.status <;> simp [check_processing_status, h, hs]
  · intro m
    simp [check_processing_status, get_document_status]
  · intro h
    simp [check_processing_status, h]
  · intro rec h
    cases hs : rec.status <;> simp [check_processing_status, h, hs]

/-- Claim C4 (witness for the amended theorem at a concrete unknown
job). -/
theorem c4_witness :
    check_processing_status "a9" initState
      = { status := "unknown", httpCode := 404 } :=
  (c4_peek_status_mapping "a9" initState).2.2.1 (by decide)

/-- Claim C5 (counterexample): in the state where the StatusStore reports
`completed` for `j1` but MongoDB has no record, the result endpoint
answers with the plain 404 not-found body, byte-identical to the answer
for a wholly unknown job, so no distinct inconsistent-state signal
exists. -/
theorem c5_counterexample :
    (get_document_status "j1" sInc).map (fun r => r.status)
      = some Status.completed ∧
    lookupA "j1" sInc.mongo = none ∧
    get_processing_result "j1" sInc
      = ResultResp.notFound "No record found for document ID: j1" ∧
    get_processing_result "j1" initState
      = ResultResp.notFound "No record found for document ID: j1" := by
  decide

/-- Claim C5 (amended): whenever the StatusStore reports `completed` and
the ResultStore has no record, `get_processing_result` returns the plain
not-found answer, the same response an unknown job receives. -/
theorem c5_inconsistent_masked_as_not_found (document_id : String)
    (s : SysState) (rec : StatusRecord)
    (hrec : get_document_status document_id s = some rec)
    (hst : rec.status = Status.completed)
    (hmongo : lookupA document_id s.mongo = none) :
    get_processing_result document_id s
      = ResultResp.notFound
          ("No record found for document ID: " ++ document_id) := by
  simp [get_processing_result, result_from_mongo, hrec, hst, hmongo]

/-- Claim C5 (witness for the amended theorem at the concrete
inconsistent state). -/
theorem c5_witness :
    get_processing_result "j1" sInc
      = ResultResp.notFound "No record found for document ID: j1" :=
  c5_inconsistent_masked_as_not_found "j1" sInc
    { status := Status.completed, document_hash := some "h0",
      filename := none, started_at := none, completed_at := some 2,
      result := some "hello world", result_preview := none, error := none }
    (by decide) (by decide) (by decide)

/-- Claim C6: the worker task body is total at its interface: an engine
exception with message `e` is captured and returned as the tagged
`failed` outcome carrying `e` verbatim, and a successful engine run
always yields a tagged `completed` outcome, so the function never
propagates an exception to the pool. -/
theorem c6_failure_captured (e : String) (out : EngineOut) :
    process_pdf_sync (Except.error e) = SyncResult.failed e ∧
    (∃ t, process_pdf_sync (Except.ok out) = SyncResult.completed t) :=
  ⟨rfl, ⟨_, rfl⟩⟩

/-- Claim C7: for a single job run from the initial state, the status
writes for that `job_id` appear in the order `queued`, then
`processing`, then one or more terminal statuses, for every engine
outcome and every durable-store availability. -/
theorem c7_status_write_order (hashHex : List Nat → String)
    (filename document_id : String) (file_bytes : List Nat)
    (engine : Except String EngineOut) (mongoOk : Bool)
    (hf : pyEndsWith (pyLower filename) ".pdf" = true)
    (hid : document_id ≠ "") :
    validStatusSeq (statusWritesFor document_id
      (runJob hashHex filename document_id file_bytes engine mongoOk
        initState).1.trace) = true := by
  cases engine with
  | error e =>
    cases mongoOk <;>
      simp [runJob, upload_pdf, hf, hid, process_pdf_async,
        process_pdf_sync, save_results, save_error, update_document_status,
        get_document_status, lookupA, initState, statusWritesFor,
        validStatusSeq, isTerminal]
  | ok out =>
    cases mongoOk <;>
      simp [runJob, upload_pdf, hf, hid, process_pdf_async,
        process_pdf_sync, save_results, save_error, update_document_status,
        get_document_status, lookupA, initState, statusWritesFor,
        validStatusSeq, isTerminal]

/-- Claim C7 (witness at a concrete successful job run). -/
theorem c7_witness :
    validStatusSeq (statusWritesFor "a1"
      (runJob hash0 "f.pdf" "a1" [1] (Except.ok out0) true
        initState).1.trace) = true :=
  c7_status_write_order hash0 "f.pdf" "a1" [1] (Except.ok out0) true
    (by decide) (by decide)

set_option maxRecDepth 40000 in
/-- Claim C8: running a job whose result text has 501 characters to
successful completion leaves a final StatusStore record that carries the
full unbounded text in its `result` field and no `result_preview` field:
the truncated-preview record written by `save_results` is immediately
overwritten by `process_pdf_async`'s full-text `completed` write, against
the stated bounded-preview behavior. -/
theorem c8_full_text_in_final_status_record :
    (get_document_status "j8"
        (runJob hash0 "doc.pdf" "j8" [1] (Except.ok outBig) true
          initState).1).map (fun r => r.status) = some Status.completed ∧
    (get_document_status "j8"
        (runJob hash0 "doc.pdf" "j8" [1] (Except.ok outBig) true
          initState).1).map (fun r => r.result) = some (some bigText) ∧
    (get_document_status "j8"
        (runJob hash0 "doc.pdf" "j8" [1] (Except.ok outBig) true
          initState).1).map (fun r => r.result_preview) = some none ∧
    bigText.length = 501 := by
  decide

/-- Claim C9: a job whose analysis outcome is a failure with message `e`
ends with a StatusStore record carrying status `failed`, the message `e`
verbatim and a completion timestamp, and the run leaves the durable
MongoDB collection untouched, whatever its availability. -/
theorem c9_failed_outcome_no_result_write (hashHex : List Nat → String)
    (filename document_id : String) (file_bytes : List Nat) (e : String)
    (mongoOk : Bool) (s : SysState)
    (hf : pyEndsWith (pyLower filename) ".pdf" = true)
    (hid : document_id ≠ "")
    (hfresh : get_document_status document_id s = none) :
    (get_document_status document_id
        (runJob hashHex filename document_id file_bytes (Except.error e)
          mongoOk s).1).map (fun r => r.status) = some Status.failed ∧
    (get_document_status document_id
        (runJob hashHex filename document_id file_bytes (Except.error e)
          mongoOk s).1).map (fun r => r.error) = some (some e) ∧
    (get_document_status document_id
        (runJob hashHex filename document_id file_bytes (Except.error e)
          mongoOk s).1).map (fun r => r.completed_at.isSome) = some true ∧
    (runJob hashHex filename document_id file_bytes (Except.error e)
        mongoOk s).1.mongo = s.mongo := by
  have hfresh2 : lookupA document_id s.docs = none := hfresh
  simp [runJob, upload_pdf, hf, hid, hfresh2, process_pdf_async,
    process_pdf_sync, save_results, save_error, update_document_status,
    get_document_status, lookupA]

/-- Claim C9 (witness at a concrete failing job run). -/
theorem c9_witness :
    (get_document_status "a4"
        (runJob hash0 "f.pdf" "a4" [1] (Except.error "boom") true
          initState).1).map (fun r => r.status) = some Status.failed ∧
    (get_document_status "a4"
        (runJob hash0 "f.pdf" "a4" [1] (Except.error "boom") true
          initState).1).map (fun r => r.error) = some (some "boom") ∧
    (get_document_status "a4"
        (runJob hash0 "f.pdf" "a4" [1] (Except.error "boom") true
          initState).1).map (fun r => r.completed_at.isSome) = some true ∧
    (runJob hash0 "f.pdf" "a4" [1] (Except.error "boom") true
        initState).1.mongo = initState.mongo :=
  c9_failed_outcome_no_result_write hash0 "f.pdf" "a4" [1] "boom" true
    initState (by decide) (by decide) (by decide)

/-- Claim C10: every durable document written by `save_results` computes
its statistics over exactly the persisted text: the stored `word_count`
is the number of whitespace-separated tokens of the stored
`combined_text`, and the stored `character_count` is the length of that
same stored text. -/
theorem c10_stats_match_stored_text (document_id text : String)
    (s : SysState) :
    ∃ doc, lookupA document_id
        (save_results true document_id (SyncResult.completed text)
          s).1.mongo = some doc ∧
      doc.combined_text = text ∧
      doc.word_count = (pySplit doc.combined_text).length ∧
      doc.character_count = doc.combined_text.length := by
  refine ⟨{ document_id := document_id, combined_text := text,
            status := "completed", processed_at := s.clock,
            word_count := (pySplit text).length,
            character_count := text.length }, ?_, rfl, rfl, rfl⟩
  simp [save_results, update_document_status, lookupA]
